import Mathlib

/-!
Verification development for the `wopr-plugin-provider-anthropic` plugin.

The definitions below are shallow embeddings of the functions in
`src/index.ts` (auth resolution, credential validation, the V2 session
registry with its per-key lock, the idle-session sweep, the streaming
query relay and its option merging).  Filesystem contents, the process
environment and upstream errors are made explicit parameters; JavaScript
objects are modelled as association lists with first-match lookup;
`try`/`catch` around JSON parsing is modelled by enumerating the parse
outcomes of each credential file.
-/

namespace WoprAnthropic

/-! ## String helpers (JS `String.prototype.startsWith` / `includes`) -/

/-- `isSubAt pat s` : does `pat` occur at the start of `s` (character lists)? -/
def isSubAt : List Char → List Char → Bool
  | [], _ => true
  | _ :: _, [] => false
  | p :: ps, c :: cs => p = c && isSubAt ps cs

/-- Does `pat` occur as a contiguous substring of `s` (character lists)? -/
def containsSub (pat : List Char) : List Char → Bool
  | [] => isSubAt pat []
  | c :: cs => isSubAt pat (c :: cs) || containsSub pat cs

/-- JS `s.startsWith(pat)`. -/
def strStartsWith (s pat : String) : Bool := isSubAt pat.data s.data

/-- JS `s.includes(pat)`. -/
def strIncludes (s pat : String) : Bool := containsSub pat.data s.data

/-! ## Auth state and filesystem model (src/index.ts:118-165)

`loadClaudeCodeCredentials` and `loadWoprAuth` read a JSON file inside
`try`/`catch`, returning `null` when the file is missing or unparsable.
The possible outcomes of reading each file are enumerated by an inductive
type, so both loaders are total functions: the embedding has no throwing
path, mirroring the source's catch-all handlers. -/

inductive AuthType where
  | oauth
  | api_key
  deriving DecidableEq, Repr

/-- The `AuthState` interface (src/index.ts:121-128). -/
structure AuthState where
  type : AuthType
  accessToken : Option String := none
  refreshToken : Option String := none
  expiresAt : Option Nat := none
  apiKey : Option String := none
  email : Option String := none
  deriving DecidableEq, Repr

/-- Read outcomes for `~/.claude/.credentials.json`:
missing file, malformed JSON, parsed JSON without a usable
`claudeAiOauth.accessToken`, or parsed OAuth credentials. -/
inductive ClaudeCredFile where
  | missing
  | malformed
  | noOauth
  | oauth (accessToken : String) (refreshToken : Option String)
      (expiresAt : Option Nat) (email : Option String)
  deriving DecidableEq, Repr

/-- Read outcomes for `~/.wopr/auth.json`. -/
inductive WoprAuthFile where
  | missing
  | malformed
  | parsed (a : AuthState)
  deriving DecidableEq, Repr

/-- The two credential files consulted by auth resolution. -/
structure FsState where
  claudeCredentials : ClaudeCredFile
  woprAuth : WoprAuthFile
  deriving DecidableEq, Repr

/-- Embedding of `loadClaudeCodeCredentials` (src/index.ts:130-148). -/
def loadClaudeCodeCredentials (fs : FsState) : Option AuthState :=
  match fs.claudeCredentials with
  | .missing => none
  | .malformed => none
  | .noOauth => none
  | .oauth tok rtok exp email =>
      some { type := .oauth, accessToken := some tok, refreshToken := rtok,
             expiresAt := exp, email := email }

/-- Embedding of `loadWoprAuth` (src/index.ts:150-157). -/
def loadWoprAuth (fs : FsState) : Option AuthState :=
  match fs.woprAuth with
  | .missing => none
  | .malformed => none
  | .parsed a => some a

/-- Embedding of `getAuth` (src/index.ts:159-165): Claude Code credentials
first, WOPR auth file second, else `null`. -/
def getAuth (fs : FsState) : Option AuthState :=
  match loadClaudeCodeCredentials fs with
  | some claudeCodeAuth => some claudeCodeAuth
  | none =>
      match loadWoprAuth fs with
      | some woprAuth => some woprAuth
      | none => none

/-! ## Active-auth classification (src/index.ts:253-267) -/

/-- The `CLAUDE_CODE_USE_*` environment flags consulted by
`getActiveAuthMethod`. -/
structure EnvFlags where
  claudeCodeUseBedrock : Bool := false
  claudeCodeUseVertex : Bool := false
  claudeCodeUseFoundry : Bool := false
  deriving DecidableEq, Repr

/-- `auth?.type === t` on an optional auth state. -/
def authTypeIs (auth : Option AuthState) (t : AuthType) : Bool :=
  match auth with
  | some a => a.type = t
  | none => false

/-- Embedding of `getActiveAuthMethod` (src/index.ts:253-263). -/
def getActiveAuthMethod (fs : FsState) (env : EnvFlags) : String :=
  let auth := getAuth fs
  if authTypeIs auth .oauth then "oauth"
  else if authTypeIs auth .api_key then "api-key"
  else if env.claudeCodeUseBedrock then "bedrock"
  else if env.claudeCodeUseVertex then "vertex"
  else if env.claudeCodeUseFoundry then "foundry"
  else if (loadClaudeCodeCredentials fs).isSome then "oauth"
  else "none"

/-- Embedding of `hasCredentials` (src/index.ts:265-267). -/
def hasCredentials (fs : FsState) (env : EnvFlags) : Bool :=
  getActiveAuthMethod fs env ≠ "none"

/-! ## Credential validation front-end (src/index.ts:311-337)

`validateCredentials` decides synchronously, before any upstream call,
whether to answer from local state or to issue a network probe.  The
embedding returns which of the two happens: `.noNetwork r` means the
function returns `r` without touching the network, `.networkProbe` means
it proceeds to the `query(...)` round trip. -/

inductive ValidationStep where
  | noNetwork (result : Bool)
  | networkProbe
  deriving DecidableEq, Repr

/-- Embedding of the non-network portion of
`anthropicProvider.validateCredentials` (src/index.ts:311-319):
`!credential || credential === ""` collapses to `credential = ""` for
string credentials, and a credential not starting in `"sk-ant-"` is
rejected before any request is issued. -/
def validateCredentialsCheck (fs : FsState) (env : EnvFlags)
    (credential : String) : ValidationStep :=
  if credential = "" then .noNetwork (hasCredentials fs env)
  else if !(strStartsWith credential "sk-ant-") then .noNetwork false
  else .networkProbe

/-! ## Idle-session sweep (src/index.ts:372, 381-398) -/

/-- `SESSION_TIMEOUT_MS = 30 * 60 * 1000` (src/index.ts:372). -/
def SESSION_TIMEOUT_MS : Int := 30 * 60 * 1000

/-- The fields of an `ActiveSession` record the sweep inspects
(src/index.ts:355-363); timestamps are JS epoch milliseconds. -/
structure SweepSession where
  lastMessageAt : Int
  streaming : Bool
  deriving DecidableEq, Repr

/-- The per-session eviction test of the cleanup interval
(src/index.ts:387): `now - session.lastMessageAt > SESSION_TIMEOUT_MS
&& !session.streaming`. -/
def sweepEvicts (now : Int) (s : SweepSession) : Bool :=
  decide (now - s.lastMessageAt > SESSION_TIMEOUT_MS) && !s.streaming

/-- One tick of the cleanup interval (src/index.ts:384-397): every entry
satisfying the eviction test is closed and removed from `activeSessions`;
all others are kept. -/
def sweepTick (now : Int) (sessions : List (String × SweepSession)) :
    List (String × SweepSession) :=
  sessions.filter (fun kv => !sweepEvicts now kv.2)

/-! ## Upstream messages and the V1 query relay (src/index.ts:624-682)

The upstream streaming API yields heterogeneous message records; for the
stream-relay behaviour only the message type and, for assistant messages,
the optional `usage` field matter.  `cost_metadata` is the synthetic
record shape the repository's cost-reporting tests expect at stream
end. -/

/-- The `usage` field carried by assistant messages. -/
structure Usage where
  input_tokens : Nat
  output_tokens : Nat
  deriving DecidableEq, Repr

/-- Shape of a streamed message, as far as the relay distinguishes them. -/
inductive QMsg where
  | assistant (usage : Option Usage)
  | system
  | result
  | cost_metadata (input_tokens output_tokens : Nat)
  deriving DecidableEq, Repr

/-- Is a message the synthetic `cost_metadata` record? -/
def isCostMetadata : QMsg → Bool
  | .cost_metadata _ _ => true
  | _ => false

/-- Embedding of the streaming loop of `AnthropicClient.query`
(src/index.ts:664-682): `for await (const msg of q) { ... yield msg; }` —
every upstream message is yielded unchanged and nothing is appended after
the loop ends. -/
def queryRelay : List QMsg → List QMsg
  | [] => []
  | msg :: rest => msg :: queryRelay rest

/-! ## queryV2 failure handling (src/index.ts:606-621) -/

/-- A JS `Error` instance as seen by the catch block: `String(error)`
yields `"Error: " ++ message` and `error.message` yields `message`. -/
structure JsError where
  message : String
  deriving DecidableEq, Repr

/-- JS `String(error)` on an `Error` instance. -/
def jsErrorToString (e : JsError) : String := "Error: " ++ e.message

/-- The dead-session heuristic (src/index.ts:612):
`errorStr.includes("session") || errorStr.includes("closed") ||
errorStr.includes("No conversation")`. -/
def deadSessionPattern (errorStr : String) : Bool :=
  strIncludes errorStr "session" || strIncludes errorStr "closed" ||
    strIncludes errorStr "No conversation"

/-- What the caller of the `queryV2` generator observes after the catch
block runs: either the generator completes normally (error swallowed) or
an error with the given message is raised. -/
inductive QueryV2ErrOutcome where
  | swallowed
  | thrown (msg : String)
  deriving DecidableEq, Repr

/-- Effect of the `queryV2` catch block on the session record and on the
caller. -/
structure QueryV2ErrResult where
  streaming : Bool
  sessionRetained : Bool
  outcome : QueryV2ErrOutcome
  deriving DecidableEq, Repr

/-- Embedding of the catch block of `AnthropicClient.queryV2`
(src/index.ts:606-620): `streaming` is cleared and the session is deleted
from `activeSessions` on both branches; if `String(error)` matches the
dead-session pattern the block only logs (the generator then ends
normally), otherwise it throws
`Anthropic V2 query failed: ${error.message}`. -/
def queryV2CatchBlock (error : JsError) : QueryV2ErrResult :=
  let errorStr := jsErrorToString error
  if deadSessionPattern errorStr then
    { streaming := false, sessionRetained := false, outcome := .swallowed }
  else
    { streaming := false, sessionRetained := false,
      outcome := .thrown ("Anthropic V2 query failed: " ++ error.message) }

/-! ## Request-option construction and merging (src/index.ts:624-662)

JS objects are modelled as association lists with first-match lookup;
`Object.assign(target, source)` therefore prepends `source`, whose keys
then shadow those of `target`. -/

/-- An option value; structured values (MCP server configs, image
blocks, …) are represented opaquely by a tag. -/
inductive OptVal where
  | str (s : String)
  | num (n : Int)
  | boolean (b : Bool)
  | obj (tag : String)
  deriving DecidableEq, Repr

/-- A JS object as an association list; the first occurrence of a key is
its current value. -/
abbrev OptMap := List (String × OptVal)

/-- Property lookup: first match wins. -/
def lookupOpt : OptMap → String → Option OptVal
  | [], _ => none
  | (k', v) :: rest, k => if k' = k then some v else lookupOpt rest k

/-- `Object.assign(target, source)`: keys of `source` override keys of
`target`. -/
def objAssign (target source : OptMap) : OptMap := source ++ target

/-- The fields of `ModelQueryOptions` that `AnthropicClient.query` reads
when building `queryOptions` (src/index.ts:624-662); numeric option
values are carried as opaque `OptVal`s. -/
structure QueryOpts where
  prompt : String
  systemPrompt : Option String := none
  resume : Option String := none
  model : Option String := none
  temperature : Option OptVal := none
  maxTokens : Option Nat := none
  topP : Option OptVal := none
  mcpServers : Option OptVal := none
  providerOptions : Option OptMap := none
  deriving Repr

/-- `opts.maxTokens || 4096` (src/index.ts:628): `0` is falsy in JS. -/
def maxTokensOrDefault (o : QueryOpts) : Nat :=
  match o.maxTokens with
  | some n => if n = 0 then 4096 else n
  | none => 4096

/-- Conditionally add a property, as `if (cond) queryOptions.k = v`. -/
def addOptIf (m : OptMap) (k : String) : Option OptVal → OptMap
  | some v => (k, v) :: m
  | none => m

/-- The `queryOptions` object built from the per-call arguments before
the two `Object.assign` merges (src/index.ts:627-641; the image-handling
block, which only adds an `imageContents` key from fetched URLs, is not
modelled). -/
def buildBaseQueryOptions (defaultModel : String) (o : QueryOpts) : OptMap :=
  let m : OptMap :=
    [("max_tokens", .num (Int.ofNat (maxTokensOrDefault o))),
     ("model", .str (o.model.getD defaultModel)),
     ("permissionMode", .str "bypassPermissions"),
     ("allowDangerouslySkipPermissions", .boolean true)]
  let m := addOptIf m "systemPrompt" (o.systemPrompt.map .str)
  let m := addOptIf m "resume" (o.resume.map .str)
  let m := addOptIf m "temperature" o.temperature
  let m := addOptIf m "topP" o.topP
  addOptIf m "mcpServers" o.mcpServers

/-- The final upstream options of `AnthropicClient.query`
(src/index.ts:661-662):
`Object.assign(queryOptions, opts.providerOptions)` then
`Object.assign(queryOptions, this.options)`. -/
def buildQueryOptions (defaultModel : String) (clientOptions : OptMap)
    (o : QueryOpts) : OptMap :=
  let base := buildBaseQueryOptions defaultModel o
  let merged := objAssign base (o.providerOptions.getD [])
  objAssign merged clientOptions

/-! ## The AnthropicClient constructor (src/index.ts:447-468)

The constructor stores `credential` and `options` on the instance and
selects the auth posture, writing or deleting the process-wide
`process.env.ANTHROPIC_API_KEY` variable.  The `options` record is kept
unexamined for the later `Object.assign` in `query`; no branch of the
constructor inspects it and no branch throws, so the embedding returns
`Except.ok` on every path (the `Except` return type records that the
source constructor has no throwing path). -/

/-- The slice of `process.env` the constructor touches. -/
structure ProcessEnv where
  anthropicApiKey : Option String
  deriving DecidableEq, Repr

/-- Result of constructing an `AnthropicClient`: the chosen `authType`,
the process-wide environment after construction, and the stored
per-client `options`. -/
structure CtorResult where
  authType : String
  env : ProcessEnv
  storedOptions : OptMap
  deriving DecidableEq, Repr

/-- Embedding of the `AnthropicClient` constructor (src/index.ts:450-468):
`credential && credential.startsWith("sk-ant-")` selects the api-key
branch (which assigns the key into `process.env`); otherwise `getAuth()`
decides between OAuth (key deleted), a file-based api key (key assigned)
and the OAuth default (key deleted). -/
def anthropicClientConstructor (credential : String) (options : OptMap)
    (fs : FsState) (_envBefore : ProcessEnv) : Except String CtorResult :=
  if credential ≠ "" ∧ strStartsWith credential "sk-ant-" = true then
    .ok { authType := "api_key", env := { anthropicApiKey := some credential },
          storedOptions := options }
  else
    match getAuth fs with
    | some auth =>
        if auth.type = .oauth ∧ auth.accessToken.isSome then
          .ok { authType := "oauth", env := { anthropicApiKey := none },
                storedOptions := options }
        else if auth.type = .api_key ∧ auth.apiKey.isSome then
          .ok { authType := "api_key", env := { anthropicApiKey := auth.apiKey },
                storedOptions := options }
        else
          .ok { authType := "oauth", env := { anthropicApiKey := none },
                storedOptions := options }
    | none =>
        .ok { authType := "oauth", env := { anthropicApiKey := none },
              storedOptions := options }

/-- A filesystem with neither credential file present. -/
def fsEmpty : FsState := { claudeCredentials := .missing, woprAuth := .missing }

/-! ## Retry policy

`retryWithBackoff` is exercised by `src/tests/retry.test.ts` but its
implementation is not among the source files under `src/`; it is
modelled from the specification (§4.3). -/

/-- A JS error as classified by the retry policy: a message and an
optional HTTP `status` property. -/
structure JsHttpError where
  message : String
  status : Option Nat := none
  deriving DecidableEq, Repr

/-- Modelled from the spec: the retry classifier of §4.3 — retryable iff
HTTP status is 429 or 503, or the message matches a transient-network
pattern such as a connection reset (the pattern set is taken from the
spec and from src/tests/retry.test.ts, which uses `ECONNRESET`);
`retryWithBackoff` itself is absent from src/. -/
def isRetryableError (e : JsHttpError) : Bool :=
  e.status = some 429 || e.status = some 503 ||
    strIncludes e.message "ECONNRESET" || strIncludes e.message "ECONNREFUSED" ||
    strIncludes e.message "ETIMEDOUT" || strIncludes e.message "socket hang up"

/-- Modelled from the spec: the retry loop of §4.3, with the outcome of
the k-th attempt given by `op k` and the remaining retry budget as
`fuel`.  A retryable failure with budget left waits
`baseDelayMs * 2 ^ attempt` and retries; a non-retryable failure, or an
exhausted budget, re-raises the error unchanged.  Returns the list of
delays waited and the final outcome. -/
def retryAux {α : Type} (op : Nat → Except JsHttpError α) (baseDelayMs : Nat) :
    Nat → Nat → List Nat × Except JsHttpError α
  | attempt, fuel =>
    match op attempt with
    | .ok a => ([], .ok a)
    | .error e =>
        if isRetryableError e then
          match fuel with
          | 0 => ([], .error e)
          | f + 1 =>
              let d := baseDelayMs * 2 ^ attempt
              let rest := retryAux op baseDelayMs (attempt + 1) f
              (d :: rest.1, rest.2)
        else ([], .error e)

/-- Modelled from the spec: `retryWithBackoff(operation, {maxRetries,
baseDelayMs}, logger)` (§4.3) — at most `maxRetries` retries after the
initial attempt, pure exponential backoff, no jitter. -/
def retryWithBackoff {α : Type} (op : Nat → Except JsHttpError α)
    (maxRetries baseDelayMs : Nat) : List Nat × Except JsHttpError α :=
  retryAux op baseDelayMs 0 maxRetries

/-! ## The per-key session-creation lock (src/index.ts:421-442, 512-576)

Two concurrent `queryV2` calls for the same `sessionKey` are modelled as
an interleaving of atomic blocks of one event-loop task each.  A block
extends from one suspension point (`await`) to the next; in the source
the sequence "outer `activeSessions.get` check → `sessionLocks` check →
`sessionLocks.set` → the creation callback (which contains no `await`:
double-check, `unstable_v2_createSession`, `activeSessions.set`)" runs
without any intervening `await` and is therefore a single atomic block,
while `await existingLock` and the `resolve()`/lock-map cleanup in the
`finally` are separate blocks.  The registry is restricted to the single
key under consideration, so it is an `Option` holding the identity
(creator index) of the `ActiveSession`; `createCount` counts calls to
`unstable_v2_createSession`. -/

/-- Position of a task between atomic blocks of `queryV2`. -/
inductive LockPC where
  | entry
  | blocked
  | postFn
  | finished
  deriving DecidableEq, Repr

/-- Per-task state: program position, the `ActiveSession` identity the
task ended up using, and which lock promise it awaits when blocked. -/
structure TaskSt where
  pc : LockPC
  result : Option (Fin 2)
  waitingOn : Option (Fin 2)
  deriving DecidableEq, Repr

/-- Joint state of the registry entry for one `sessionKey`, its lock-map
entry, the resolved flags of the two lock promises, the number of
upstream session-create calls, and the two tasks. -/
structure SysSt where
  registry : Option (Fin 2)
  lockOwner : Option (Fin 2)
  resolved0 : Bool
  resolved1 : Bool
  createCount : Nat
  task0 : TaskSt
  task1 : TaskSt
  deriving DecidableEq, Repr

def SysSt.getTask (s : SysSt) (i : Fin 2) : TaskSt :=
  if i = 0 then s.task0 else s.task1

def SysSt.setTask (s : SysSt) (i : Fin 2) (t : TaskSt) : SysSt :=
  if i = 0 then { s with task0 := t } else { s with task1 := t }

def SysSt.resolvedOf (s : SysSt) (i : Fin 2) : Bool :=
  if i = 0 then s.resolved0 else s.resolved1

def SysSt.setResolved (s : SysSt) (i : Fin 2) : SysSt :=
  if i = 0 then { s with resolved0 := true } else { s with resolved1 := true }

/-- The atomic block `sessionLocks.set` + creation callback
(src/index.ts:431-434 and 522-573): acquire the lock, double-check the
registry; reuse an existing session, or create one (bumping
`createCount`) and register it. -/
def acquireAndRun (s : SysSt) (i : Fin 2) (t : TaskSt) : SysSt :=
  let s1 := { s with lockOwner := some i }
  match s1.registry with
  | some sess => s1.setTask i { t with pc := .postFn, result := some sess }
  | none =>
      SysSt.setTask
        { s1 with registry := some i, createCount := s1.createCount + 1 } i
        { t with pc := .postFn, result := some i }

/-- One atomic block of task `i` (no-op when the task is finished or
still blocked on an unresolved lock promise):
* `entry` — outer registry check (src/index.ts:517-521): an existing
  session is reused directly; otherwise the lock-map entry is read, and
  the task either runs `acquireAndRun` at once or records the promise it
  must await;
* `blocked` — resumption after `await existingLock`
  (src/index.ts:423-426), continuing into `acquireAndRun`;
* `postFn` — the `finally` block (src/index.ts:435-441): resolve the own
  lock promise and delete the lock-map entry if it is still ours. -/
def lockStep (s : SysSt) (i : Fin 2) : SysSt :=
  let t := s.getTask i
  match t.pc with
  | .entry =>
      match s.registry with
      | some sess => s.setTask i { t with pc := .finished, result := some sess }
      | none =>
          match s.lockOwner with
          | none => acquireAndRun s i t
          | some j => s.setTask i { t with pc := .blocked, waitingOn := some j }
  | .blocked =>
      match t.waitingOn with
      | some j => if s.resolvedOf j then acquireAndRun s i t else s
      | none => s
  | .postFn =>
      let s1 := s.setResolved i
      let s2 := if s1.lockOwner = some i then { s1 with lockOwner := none } else s1
      s2.setTask i { t with pc := .finished }
  | .finished => s

/-- Run a schedule: each entry names the task taking the next atomic
block. -/
def lockRun (s : SysSt) : List (Fin 2) → SysSt
  | [] => s
  | i :: rest => lockRun (lockStep s i) rest

/-- Initial state: no session for the key, no lock-map entry, both calls
about to start. -/
def initSt : SysSt :=
  { registry := none, lockOwner := none, resolved0 := false, resolved1 := false,
    createCount := 0,
    task0 := { pc := .entry, result := none, waitingOn := none },
    task1 := { pc := .entry, result := none, waitingOn := none } }

/-- Task-state constructor for listing reachable states. -/
def mkTask (pc : LockPC) (r : Option (Fin 2)) : TaskSt :=
  { pc := pc, result := r, waitingOn := none }

/-- The states reachable from `initSt` under `lockStep` (closure is
proved below). -/
def reachableStates : List SysSt :=
  [ initSt,
    ⟨some 0, some 0, false, false, 1, mkTask .postFn (some 0), mkTask .entry none⟩,
    ⟨some 0, none, true, false, 1, mkTask .finished (some 0), mkTask .entry none⟩,
    ⟨some 0, some 0, false, false, 1, mkTask .postFn (some 0), mkTask .finished (some 0)⟩,
    ⟨some 0, none, true, false, 1, mkTask .finished (some 0), mkTask .finished (some 0)⟩,
    ⟨some 1, some 1, false, false, 1, mkTask .entry none, mkTask .postFn (some 1)⟩,
    ⟨some 1, none, false, true, 1, mkTask .entry none, mkTask .finished (some 1)⟩,
    ⟨some 1, some 1, false, false, 1, mkTask .finished (some 1), mkTask .postFn (some 1)⟩,
    ⟨some 1, none, false, true, 1, mkTask .finished (some 1), mkTask .finished (some 1)⟩ ]

/-! ## Concrete inputs used by witnesses and counterexamples -/

/-- A filesystem holding valid Claude Code OAuth credentials. -/
def fsWithOauthCreds : FsState :=
  { claudeCredentials := .oauth "access-token" none none none,
    woprAuth := .missing }

/-- A filesystem whose Claude Code file is malformed and whose WOPR auth
file parses to a plain api-key auth state. -/
def fsWoprOnly : FsState :=
  { claudeCredentials := .malformed,
    woprAuth := .parsed { type := .api_key, apiKey := some "sk-ant-from-file" } }

/-- Hosted-gateway options with a non-HTTPS base URL. -/
def hostedEvilOptions : OptMap :=
  [("baseUrl", .str "http://evil.example.com/v1"), ("tenantToken", .str "token")]

/-- Hosted-gateway options with a syntactically invalid base URL. -/
def hostedGarbageOptions : OptMap :=
  [("baseUrl", .str "not-a-url"), ("tenantToken", .str "token")]

/-- Per-call options whose `model` argument is contradicted by a
`providerOptions.model` entry. -/
def perCallOpts : QueryOpts :=
  { prompt := "hi", model := some "per-call-model",
    providerOptions := some [("model", .str "provider-model")] }

/-! # Theorems -/

/-- C1: the claim asserts `AnthropicClient.query` relays every upstream
message unmodified and then yields exactly one synthesized
`cost_metadata` message with the summed token counts.  The relay loop of
src/index.ts:664-682 does relay verbatim, but appends nothing: on the
stream consisting of one assistant message with usage
`{input_tokens: 100, output_tokens: 50}` (the scenario of
src/tests/cost-reporting.test.ts:49-80) the output is that single
message and contains no `cost_metadata` record at all. -/
theorem C1_query_relays_verbatim_appends_nothing :
    (∀ upstream : List QMsg, queryRelay upstream = upstream) ∧
    queryRelay [QMsg.assistant (some ⟨100, 50⟩)] = [QMsg.assistant (some ⟨100, 50⟩)] ∧
    (queryRelay [QMsg.assistant (some ⟨100, 50⟩)]).countP isCostMetadata = 0 := by
  refine ⟨?_, by decide, by decide⟩
  intro upstream
  induction upstream with
  | nil => rfl
  | cons m rest ih => simp [queryRelay, ih]

/-- Closure of `reachableStates` under `lockStep`. -/
theorem lockStep_mem_closure :
    ∀ s ∈ reachableStates, ∀ i : Fin 2, lockStep s i ∈ reachableStates := by
  decide

/-- Every run from `initSt` stays inside `reachableStates`. -/
theorem lockRun_mem_reachable (sched : List (Fin 2)) :
    ∀ s ∈ reachableStates, lockRun s sched ∈ reachableStates := by
  induction sched with
  | nil => intro s hs; exact hs
  | cons i rest ih => intro s hs; exact ih _ (lockStep_mem_closure s hs i)

/-- The claimed postcondition holds on every reachable state. -/
theorem reachable_post :
    ∀ s ∈ reachableStates,
      s.createCount ≤ 1 ∧
      (s.task0.pc = .finished → s.task1.pc = .finished →
        s.createCount = 1 ∧ s.task0.result = s.task1.result ∧
        s.task0.result = s.registry ∧ s.registry.isSome = true) := by
  decide

/-- C2: for two concurrent `queryV2` calls on the same `sessionKey`
starting with no session present, under every interleaving of the
event-loop blocks at most one `unstable_v2_createSession` call is ever
made (the registry, an `Option`, also holds at most one `ActiveSession`
for the key throughout), and once both calls have finished exactly one
create call happened and both callers use the same `ActiveSession`
identity, which is the one in the registry. -/
theorem C2_session_create_serialized (sched : List (Fin 2)) :
    (lockRun initSt sched).createCount ≤ 1 ∧
    ((lockRun initSt sched).task0.pc = .finished →
      (lockRun initSt sched).task1.pc = .finished →
      (lockRun initSt sched).createCount = 1 ∧
      (lockRun initSt sched).task0.result = (lockRun initSt sched).task1.result ∧
      (lockRun initSt sched).task0.result = (lockRun initSt sched).registry ∧
      (lockRun initSt sched).registry.isSome = true) :=
  reachable_post _ (lockRun_mem_reachable sched initSt (by decide))

/-- Witness for C2: the schedule `[0, 1, 0]` completes both calls; one
create call was made and both callers share the registered session. -/
theorem C2_session_create_serialized_witness :
    (lockRun initSt [0, 1, 0]).createCount = 1 ∧
    (lockRun initSt [0, 1, 0]).task0.result = (lockRun initSt [0, 1, 0]).task1.result ∧
    (lockRun initSt [0, 1, 0]).task0.result = (lockRun initSt [0, 1, 0]).registry ∧
    (lockRun initSt [0, 1, 0]).registry.isSome = true :=
  (C2_session_create_serialized [0, 1, 0]).2 (by decide) (by decide)

/-- C3 counterexample: on an error whose text matches the dead-session
pattern (here `"session closed"`), the catch block of `queryV2`
completes the generator normally — the caller does not see the
underlying error once, contrary to the claim; the session is still
removed. -/
theorem C3_dead_session_error_swallowed_cex :
    (queryV2CatchBlock ⟨"session closed"⟩).outcome = .swallowed ∧
    QueryV2ErrOutcome.swallowed ≠ .thrown "session closed" ∧
    (queryV2CatchBlock ⟨"session closed"⟩).sessionRetained = false := by
  decide

/-- C3 (amended): on every `queryV2` failure, `streaming` is cleared and
the session is removed from the registry; if the error text matches the
dead-session pattern the error is swallowed (the generator ends without
raising), otherwise the caller receives a wrapped error citing the
original message. -/
theorem C3_queryV2_failure_handling (e : JsError) :
    (queryV2CatchBlock e).streaming = false ∧
    (queryV2CatchBlock e).sessionRetained = false ∧
    (deadSessionPattern (jsErrorToString e) = true →
      (queryV2CatchBlock e).outcome = .swallowed) ∧
    (deadSessionPattern (jsErrorToString e) = false →
      (queryV2CatchBlock e).outcome =
        .thrown ("Anthropic V2 query failed: " ++ e.message)) := by
  unfold queryV2CatchBlock
  by_cases h : deadSessionPattern (jsErrorToString e) = true <;>
    simp_all

/-- Witness for C3: a failure whose text matches none of the dead-session
patterns is re-raised wrapped, citing the original message. -/
theorem C3_queryV2_failure_handling_witness :
    (queryV2CatchBlock ⟨"boom"⟩).outcome = .thrown "Anthropic V2 query failed: boom" :=
  (C3_queryV2_failure_handling ⟨"boom"⟩).2.2.2 (by decide)

/-- All attempts failing retryably: `retryAux` emits the full exponential
delay schedule and ends with the final attempt's own error. -/
theorem retryAux_all_retryable {α : Type} (op : Nat → Except JsHttpError α)
    (baseDelayMs : Nat) :
    ∀ fuel attempt,
      (∀ k, k ≤ attempt + fuel → ∃ e, op k = .error e ∧ isRetryableError e = true) →
      retryAux op baseDelayMs attempt fuel =
        ((List.range fuel).map (fun n => baseDelayMs * 2 ^ (attempt + n)),
          op (attempt + fuel)) := by
  intro fuel
  induction fuel with
  | zero =>
      intro attempt h
      obtain ⟨e, he, hr⟩ := h attempt (by omega)
      simp [retryAux, he, hr]
  | succ f ih =>
      intro attempt h
      obtain ⟨e, he, hr⟩ := h attempt (by omega)
      have hrec := ih (attempt + 1) (fun k hk => h k (by omega))
      simp only [retryAux, he, hr, if_true, hrec, List.range_succ_eq_map,
        List.map_cons, List.map_map, Prod.mk.injEq]
      refine ⟨?_, by rw [show attempt + 1 + f = attempt + (f + 1) from by omega]⟩
      rw [Nat.add_zero]
      congr 1
      apply List.map_congr_left
      intro n _
      simp only [Function.comp_apply]
      rw [show attempt + 1 + n = attempt + Nat.succ n from by omega]

/-- C4: for an operation whose attempts all fail with retryable errors
(HTTP 429/503 or a transient-network message), `retryWithBackoff` waits
exactly `baseDelayMs * 2 ^ n` before the (n+1)-th retry for every
`n < maxRetries`, gives up after exactly `maxRetries` retries and
re-raises the final error unchanged; a non-retryable first failure is
re-raised at once with no delays and no retries. -/
theorem C4_retryWithBackoff_behaviour {α : Type} (op : Nat → Except JsHttpError α)
    (maxRetries baseDelayMs : Nat) :
    ((∀ k, k ≤ maxRetries → ∃ e, op k = .error e ∧ isRetryableError e = true) →
      retryWithBackoff op maxRetries baseDelayMs =
        ((List.range maxRetries).map (fun n => baseDelayMs * 2 ^ n), op maxRetries)) ∧
    (∀ e, op 0 = .error e → isRetryableError e = false →
      retryWithBackoff op maxRetries baseDelayMs = ([], .error e)) := by
  constructor
  · intro h
    have hmain := retryAux_all_retryable op baseDelayMs maxRetries 0
      (by simpa using h)
    simpa [retryWithBackoff] using hmain
  · intro e he hr
    cases maxRetries <;> simp [retryWithBackoff, retryAux, he, hr]

/-- Witness for C4: an operation always failing with HTTP 429 under
`maxRetries = 2`, `baseDelayMs = 1` waits 1 ms and 2 ms and then
re-raises the original error. -/
theorem C4_retryWithBackoff_behaviour_witness :
    retryWithBackoff (fun _ => (.error ⟨"rate limited", some 429⟩ :
        Except JsHttpError Unit)) 2 1 =
      ([1, 2], .error ⟨"rate limited", some 429⟩) := by
  have h := (C4_retryWithBackoff_behaviour
      (fun _ => (.error ⟨"rate limited", some 429⟩ : Except JsHttpError Unit)) 2 1).1
    (fun k _ => ⟨⟨"rate limited", some 429⟩, rfl, by decide⟩)
  rw [h]
  rfl

/-- C5: the claim asserts construction never mutates process-wide state
observable by another instance.  The constructor (src/index.ts:450-468)
assigns `process.env.ANTHROPIC_API_KEY` directly: constructing a client
with credential `sk-ant-tenant-one` sets the process-wide variable, and
constructing a second client with `sk-ant-tenant-two` overwrites it with
a different value — exactly the cross-instance interference the claim
rules out. -/
theorem C5_constructor_mutates_process_env :
    anthropicClientConstructor "sk-ant-tenant-one" [] fsEmpty ⟨none⟩ =
      .ok { authType := "api_key", env := ⟨some "sk-ant-tenant-one"⟩,
            storedOptions := [] } ∧
    anthropicClientConstructor "sk-ant-tenant-two" [] fsEmpty
        ⟨some "sk-ant-tenant-one"⟩ =
      .ok { authType := "api_key", env := ⟨some "sk-ant-tenant-two"⟩,
            storedOptions := [] } ∧
    (some "sk-ant-tenant-one" : Option String) ≠ some "sk-ant-tenant-two" :=
  ⟨rfl, rfl, by decide⟩

/-- C6: the claim asserts hosted-gateway construction validates the base
URL and throws synchronously on a non-HTTPS or invalid URL.  The
constructor (src/index.ts:447-468) never inspects `baseUrl` or
`tenantToken` and has no throwing path: with
`baseUrl = "http://evil.example.com/v1"` (and with `"not-a-url"`) it
completes normally, merely storing the options. -/
theorem C6_constructor_skips_hosted_validation :
    anthropicClientConstructor "" hostedEvilOptions fsEmpty ⟨none⟩ =
      .ok { authType := "oauth", env := ⟨none⟩,
            storedOptions := hostedEvilOptions } ∧
    anthropicClientConstructor "" hostedGarbageOptions fsEmpty ⟨none⟩ =
      .ok { authType := "oauth", env := ⟨none⟩,
            storedOptions := hostedGarbageOptions } :=
  ⟨rfl, rfl⟩

/-- C7: a sweep tick evicts a registered session exactly when
`now - lastMessageAt` exceeds 30 minutes and `streaming` is false; a
session with `streaming = true` survives every sweep regardless of
idleness. -/
theorem C7_sweep_eviction_criterion (now : Int)
    (sessions : List (String × SweepSession)) (k : String) (s : SweepSession)
    (hmem : (k, s) ∈ sessions) :
    ((k, s) ∉ sweepTick now sessions ↔
      (now - s.lastMessageAt > SESSION_TIMEOUT_MS ∧ s.streaming = false)) ∧
    (s.streaming = true → (k, s) ∈ sweepTick now sessions) := by
  have hiff : sweepEvicts now s = true ↔
      (now - s.lastMessageAt > SESSION_TIMEOUT_MS ∧ s.streaming = false) := by
    simp [sweepEvicts, Bool.and_eq_true, decide_eq_true_eq, Bool.not_eq_true']
  have hmemf : (k, s) ∈ sweepTick now sessions ↔ sweepEvicts now s = false := by
    simp [sweepTick, List.mem_filter, hmem]
  constructor
  · rw [← hiff]
    constructor
    · intro hnot
      cases h' : sweepEvicts now s with
      | false => exact absurd (hmemf.mpr h') hnot
      | true => rfl
    · intro htrue hmem2
      rw [hmemf, htrue] at hmem2
      exact Bool.noConfusion hmem2
  · intro hstream
    apply hmemf.mpr
    simp [sweepEvicts, hstream]

/-- Witness for C7: a session idle since epoch 0 and not streaming is
gone after a sweep at 30 minutes + 1 ms. -/
theorem C7_sweep_eviction_criterion_witness :
    ("idle", (⟨0, false⟩ : SweepSession)) ∉
      sweepTick (30 * 60 * 1000 + 1) [("idle", ⟨0, false⟩)] :=
  ((C7_sweep_eviction_criterion (30 * 60 * 1000 + 1) [("idle", ⟨0, false⟩)]
      "idle" ⟨0, false⟩ (by decide)).1).mpr (by decide)

/-- C8: auth resolution consults the Claude Code OAuth credential file
first and the WOPR auth file second, returns the first successfully
parsed state (else none), and treats a missing or malformed file as
"not present"; both loaders and `getAuth` are total functions, so no
filesystem state makes resolution throw. -/
theorem C8_auth_resolution_order (fs : FsState) :
    (∀ a, loadClaudeCodeCredentials fs = some a → getAuth fs = some a) ∧
    (loadClaudeCodeCredentials fs = none → getAuth fs = loadWoprAuth fs) ∧
    ((fs.claudeCredentials = .missing ∨ fs.claudeCredentials = .malformed) →
      loadClaudeCodeCredentials fs = none) ∧
    ((fs.woprAuth = .missing ∨ fs.woprAuth = .malformed) →
      loadWoprAuth fs = none) := by
  refine ⟨?_, ?_, ?_, ?_⟩
  · intro a ha
    simp [getAuth, ha]
  · intro h
    cases hw : loadWoprAuth fs <;> simp [getAuth, h, hw]
  · rintro (h | h) <;> simp [loadClaudeCodeCredentials, h]
  · rintro (h | h) <;> simp [loadWoprAuth, h]

/-- Witness for C8: with a malformed Claude Code file, resolution falls
through to the WOPR auth file. -/
theorem C8_auth_resolution_order_witness :
    getAuth fsWoprOnly = loadWoprAuth fsWoprOnly :=
  (C8_auth_resolution_order fsWoprOnly).2.1 (by decide)

/-- C9 counterexample: the claim includes the empty string among
credentials rejected with `false`, but `validateCredentials` returns
`hasCredentials()` for an empty credential (src/index.ts:313-315): with
an OAuth credential file present it answers `true` (still without any
network call). -/
theorem C9_empty_credential_cex :
    validateCredentialsCheck fsWithOauthCreds {} "" = .noNetwork true ∧
    ValidationStep.noNetwork true ≠ .noNetwork false := by
  decide

/-- C9 (amended): every nonempty credential that does not start with
`"sk-ant-"` is rejected with `false` before any network call; the empty
string is instead answered by `hasCredentials()` (also without a
network call). -/
theorem C9_bad_prefix_rejected_locally (fs : FsState) (env : EnvFlags)
    (credential : String) (hne : credential ≠ "")
    (hpre : strStartsWith credential "sk-ant-" = false) :
    validateCredentialsCheck fs env credential = .noNetwork false := by
  simp [validateCredentialsCheck, hne, hpre]

/-- Witness for C9: `"bogus-key"` is rejected locally even when ambient
credentials exist. -/
theorem C9_bad_prefix_rejected_locally_witness :
    validateCredentialsCheck fsWithOauthCreds {} "bogus-key" = .noNetwork false :=
  C9_bad_prefix_rejected_locally fsWithOauthCreds {} "bogus-key" (by decide)
    (by decide)

/-- First-match lookup distributes over append. -/
theorem lookupOpt_append (a b : OptMap) (k : String) :
    lookupOpt (a ++ b) k =
      match lookupOpt a k with
      | some v => some v
      | none => lookupOpt b k := by
  induction a with
  | nil => rfl
  | cons kv rest ih =>
      cases kv with
      | mk k' v => by_cases h : k' = k <;> simp [lookupOpt, h, ih]

/-- C10: in `AnthropicClient.query`, `opts.providerOptions` and then the
construction-time `this.options` are assigned into the request options
last, so a key present in the construction options takes precedence over
everything, and a key present in `providerOptions` (and not in the
construction options) takes precedence over the per-call arguments. -/
theorem C10_options_merge_precedence (defaultModel : String)
    (clientOptions : OptMap) (o : QueryOpts) (k : String) (v : OptVal) :
    (lookupOpt clientOptions k = some v →
      lookupOpt (buildQueryOptions defaultModel clientOptions o) k = some v) ∧
    (lookupOpt clientOptions k = none →
      lookupOpt (o.providerOptions.getD []) k = some v →
      lookupOpt (buildQueryOptions defaultModel clientOptions o) k = some v) := by
  constructor
  · intro h1
    show lookupOpt (clientOptions ++ _) k = some v
    rw [lookupOpt_append, h1]
  · intro h1 h2
    show lookupOpt (clientOptions ++ (_ ++ _)) k = some v
    rw [lookupOpt_append, h1, lookupOpt_append, h2]

/-- Witness for C10: a `providerOptions.model` entry overrides the
per-call `model` argument in the issued request options. -/
theorem C10_options_merge_precedence_witness :
    lookupOpt (buildQueryOptions "default-model" [] perCallOpts) "model" =
      some (.str "provider-model") :=
  (C10_options_merge_precedence "default-model" [] perCallOpts "model"
      (.str "provider-model")).2 rfl rfl

end WoprAnthropic
